import Mathlib

/-!
Shallow embedding of the simulated plugin core of this repository:
`MathPlugin` (examples/plugins/math_plugin.py), `WeatherPlugin`
(examples/plugins/weather_plugin.py) and `DatabasePlugin`
(examples/plugins/database_plugin.py), together with proofs of the
spec's claims about them.

Conventions of the embedding:
the Python `float` arguments are idealized as exact rationals, and a
result the source computes with `**` (which can be irrational) is kept
as a real or complex number; a Python function that can raise is
embedded with an `Option`/`Except` codomain whose empty branch stands
for the raised exception; the source's diagnostic `print` calls have no
effect on return values and are dropped.
-/

namespace MathPlugin

/-- Embeds `MathPlugin.divide` (math_plugin.py lines 60-70): returns the
error string when `number2 == 0`, else the quotient `number1 / number2`.
The Python function returns either a float or a string, hence the sum
codomain. -/
def divide (number1 number2 : ℚ) : Except String ℚ :=
  if number2 = 0 then .error "Error: Cannot divide by zero"
  else .ok (number1 / number2)

/-- Embeds `MathPlugin.percentage` (math_plugin.py lines 105-115): returns
the error string when `whole == 0`, else `(part / whole) * 100`. -/
def percentage (part whole : ℚ) : Except String ℚ :=
  if whole = 0 then .error "Error: Cannot calculate percentage with zero as whole"
  else .ok (part / whole * 100)

/-- Embeds `MathPlugin.power` (math_plugin.py lines 76-84), whose body is
the unguarded `base ** exponent`. CPython float power raises
`ZeroDivisionError` when the base is `0.0` and the exponent is negative;
that raise is embedded as `none`. On every other input CPython returns a
value: for a negative base with a non-integral exponent it falls back to
complex power, so the returned value is idealized as the principal complex
power, which agrees with real exponentiation whenever the base is
positive. -/
noncomputable def power (base exponent : ℚ) : Option ℂ :=
  if base = 0 ∧ exponent < 0 then none
  else some ((base : ℂ) ^ (exponent : ℂ))

/-- Embeds `MathPlugin.square_root` (math_plugin.py lines 90-99): returns
the error string when `number < 0`, else `number ** 0.5`, idealized as the
real power `number ^ (1/2)`. -/
noncomputable def square_root (number : ℚ) : Except String ℝ :=
  if number < 0 then .error "Error: Cannot calculate square root of negative number"
  else .ok ((number : ℝ) ^ ((1 : ℝ) / 2))

/-- C1: for every `x`, `divide x 0` and `percentage x 0` return the textual
error indicator and never raise (both embedded functions are total); for
every divisor `b ≠ 0`, `divide a b` returns `a / b`, and for every
`whole ≠ 0`, `percentage part whole` returns `part / whole * 100`. -/
theorem divide_percentage_spec (x a b part whole : ℚ) :
    divide x 0 = .error "Error: Cannot divide by zero" ∧
    (b ≠ 0 → divide a b = .ok (a / b)) ∧
    percentage x 0 = .error "Error: Cannot calculate percentage with zero as whole" ∧
    (whole ≠ 0 → percentage part whole = .ok (part / whole * 100)) := by
  refine ⟨by simp [divide], fun hb => ?_, by simp [percentage], fun hw => ?_⟩
  · simp [divide, hb]
  · simp [percentage, hw]

/-- Witness for `divide_percentage_spec` at concrete inputs. -/
theorem divide_percentage_spec_w :
    divide 5 0 = .error "Error: Cannot divide by zero" ∧
    divide 7 2 = .ok (7 / 2) ∧
    percentage 5 0 = .error "Error: Cannot calculate percentage with zero as whole" ∧
    percentage 1 4 = .ok (1 / 4 * 100) :=
  ⟨(divide_percentage_spec 5 7 2 1 4).1,
   (divide_percentage_spec 5 7 2 1 4).2.1 (by norm_num),
   (divide_percentage_spec 5 7 2 1 4).2.2.1,
   (divide_percentage_spec 5 7 2 1 4).2.2.2 (by norm_num)⟩

/-- C2 counterexample: `power 0 (-1)` returns no value, because CPython's
float power raises `ZeroDivisionError` ("0.0 cannot be raised to a
negative power"); the claim that `power` never raises is false. -/
theorem power_zero_neg_raises : power 0 (-1) = none := by
  simp [power]

/-- C2 amended: `power base exponent` raises exactly when `base = 0` and
`exponent < 0`; on every other input it returns the principal power
`base ** exponent`, and whenever `base > 0` that value is the standard
real exponentiation of `base` by `exponent`. -/
theorem power_amended (base exponent : ℚ) (h : ¬(base = 0 ∧ exponent < 0)) :
    power base exponent = some ((base : ℂ) ^ (exponent : ℂ)) ∧
    (0 < base →
      ((base : ℂ) ^ (exponent : ℂ)) = ((((base : ℝ) ^ ((exponent : ℝ)) : ℝ)) : ℂ)) := by
  constructor
  · simp [power, h]
  · intro hb
    have hb' : (0 : ℝ) ≤ ((base : ℚ) : ℝ) := by exact_mod_cast hb.le
    rw [Complex.ofReal_cpow hb']
    norm_cast

/-- Witness for `power_amended` at `base = 2`, `exponent = 3`. -/
theorem power_amended_w :
    power 2 3 = some (((2 : ℚ) : ℂ) ^ ((3 : ℚ) : ℂ)) ∧
    ((0 : ℚ) < 2 →
      (((2 : ℚ) : ℂ) ^ ((3 : ℚ) : ℂ)) = (((((2 : ℚ) : ℝ) ^ (((3 : ℚ) : ℝ)) : ℝ)) : ℂ)) :=
  power_amended 2 3 (by norm_num)

/-- C3: `square_root n` for `n < 0` returns the textual error indicator and
never raises; for `n ≥ 0` it returns `n ** 0.5`, a nonnegative real whose
square is `n`. -/
theorem square_root_spec (n : ℚ) :
    (n < 0 → square_root n = .error "Error: Cannot calculate square root of negative number") ∧
    (0 ≤ n → square_root n = .ok ((n : ℝ) ^ ((1 : ℝ) / 2)) ∧
      ((n : ℝ) ^ ((1 : ℝ) / 2)) ^ 2 = (n : ℝ) ∧ 0 ≤ (n : ℝ) ^ ((1 : ℝ) / 2)) := by
  constructor
  · intro hn
    simp [square_root, hn]
  · intro hn
    have hn' : (0 : ℝ) ≤ ((n : ℚ) : ℝ) := by exact_mod_cast hn
    have hs : ((n : ℚ) : ℝ) ^ ((1 : ℝ) / 2) = Real.sqrt ((n : ℚ) : ℝ) :=
      (Real.sqrt_eq_rpow _).symm
    refine ⟨?_, ?_, ?_⟩
    · simp [square_root, not_lt.mpr hn]
    · rw [hs]
      exact Real.sq_sqrt hn'
    · rw [hs]
      exact Real.sqrt_nonneg _

/-- Witness for `square_root_spec` at `n = -1` and `n = 9`. -/
theorem square_root_spec_w :
    square_root (-1) = .error "Error: Cannot calculate square root of negative number" ∧
    square_root 9 = .ok (((9 : ℚ) : ℝ) ^ ((1 : ℝ) / 2)) :=
  ⟨(square_root_spec (-1)).1 (by norm_num),
   ((square_root_spec 9).2 (by norm_num)).1⟩

end MathPlugin

namespace PyStr

/-- Does `n` begin `h`? Helper for the embedding of Python's substring
operator on the underlying character lists. -/
def isPrefixChars : List Char → List Char → Bool
  | [], _ => true
  | _ :: _, [] => false
  | a :: as, b :: bs => a == b && isPrefixChars as bs

/-- Does `n` occur contiguously in `h`? -/
def hasSubChars (n : List Char) : List Char → Bool
  | [] => isPrefixChars n []
  | b :: bs => isPrefixChars n (b :: bs) || hasSubChars n bs

/-- Embeds Python's substring operator `n in h` on strings. -/
def contains (n h : String) : Bool :=
  hasSubChars n.toList h.toList

/-- Embeds Python's `str.lower` on the ASCII data of this repository:
`Char.toLower` lowercases exactly the ASCII uppercase range, which is
what `str.lower` does on ASCII text. Defined over the character list so
that it reduces in the kernel. -/
def lower (s : String) : String := String.mk (s.data.map Char.toLower)

/-- Specification-side statement that `n` occurs contiguously in `h`. -/
def SubOf (n h : String) : Prop :=
  ∃ l r, h.toList = l ++ n.toList ++ r

theorem isPrefixChars_iff (n : List Char) : ∀ h : List Char,
    isPrefixChars n h = true ↔ ∃ r, h = n ++ r := by
  induction n with
  | nil =>
    intro h
    simp [isPrefixChars]
  | cons a as ih =>
    intro h
    cases h with
    | nil => simp [isPrefixChars]
    | cons b bs =>
      simp only [isPrefixChars, Bool.and_eq_true, beq_iff_eq, ih]
      constructor
      · rintro ⟨hab, r, hr⟩
        refine ⟨r, ?_⟩
        rw [← hab, hr, List.cons_append]
      · rintro ⟨r, hr⟩
        injection hr with h1 h2
        exact ⟨h1.symm, r, h2⟩

theorem hasSubChars_iff (n : List Char) : ∀ h : List Char,
    hasSubChars n h = true ↔ ∃ l r, h = l ++ n ++ r := by
  intro h
  induction h with
  | nil =>
    simp only [hasSubChars, isPrefixChars_iff n]
    constructor
    · rintro ⟨r, hr⟩
      exact ⟨[], r, hr⟩
    · rintro ⟨l, r, hr⟩
      have h0 := List.append_eq_nil.mp hr.symm
      have h1 := List.append_eq_nil.mp h0.1
      refine ⟨r, ?_⟩
      rw [h0.2, h1.2]
      rfl
  | cons b bs ih =>
    simp only [hasSubChars, Bool.or_eq_true, isPrefixChars_iff n, ih]
    constructor
    · rintro (⟨r, hr⟩ | ⟨l, r, hr⟩)
      · exact ⟨[], r, hr⟩
      · refine ⟨b :: l, r, ?_⟩
        rw [hr]
        rfl
    · rintro ⟨l, r, hr⟩
      cases l with
      | nil => exact Or.inl ⟨r, hr⟩
      | cons c l =>
        injection hr with h1 h2
        exact Or.inr ⟨l, r, h2⟩

theorem contains_iff (n h : String) : contains n h = true ↔ SubOf n h := by
  unfold contains SubOf
  exact hasSubChars_iff n.toList h.toList

end PyStr

namespace DatabasePlugin

/-- Row of the simulated `_products` table (database_plugin.py lines
24-31). -/
structure Product where
  id : ℤ
  name : String
  price : ℚ
  stock : ℤ
  category : String
  deriving DecidableEq

/-- Row of the simulated `_orders` table (database_plugin.py lines
33-38). -/
structure Order where
  id : ℤ
  user_id : ℤ
  product_id : ℤ
  quantity : ℤ
  status : String
  deriving DecidableEq

/-- The fixed product table of the source. -/
def _products : List Product :=
  [⟨101, "Laptop", 999.99, 15, "Electronics"⟩,
   ⟨102, "Mouse", 29.99, 50, "Electronics"⟩,
   ⟨103, "Keyboard", 79.99, 30, "Electronics"⟩,
   ⟨104, "Monitor", 299.99, 8, "Electronics"⟩,
   ⟨105, "Desk Chair", 199.99, 12, "Furniture"⟩,
   ⟨106, "Desk", 399.99, 5, "Furniture"⟩]

/-- The fixed order table of the source. -/
def _orders : List Order :=
  [⟨1001, 1, 101, 1, "Delivered"⟩,
   ⟨1002, 2, 102, 2, "Shipped"⟩,
   ⟨1003, 1, 104, 1, "Processing"⟩,
   ⟨1004, 4, 105, 3, "Delivered"⟩]

/-- Result of `search_products`: the not-found message for the query, or
the count-prefixed listing of the matching rows. -/
inductive SearchResult
  | notFound (query : String)
  | found (count : ℕ) (rows : List Product)
  deriving DecidableEq

/-- Embeds `DatabasePlugin.search_products` (database_plugin.py lines
113-135): keeps the products whose lowercased name or category contains
the lowercased query, returning the not-found message when nothing
matches and otherwise the count-prefixed matches. -/
def search_products (query : String) : SearchResult :=
  let matching := _products.filter (fun p =>
    PyStr.contains (PyStr.lower query) (PyStr.lower p.name) ||
      PyStr.contains (PyStr.lower query) (PyStr.lower p.category))
  if matching.isEmpty then .notFound query
  else .found matching.length matching

/-- One line of the order listing built by `get_user_orders`: order id,
resolved product name, quantity, status. -/
structure OrderLine where
  order_id : ℤ
  product_name : String
  quantity : ℤ
  status : String
  deriving DecidableEq

/-- Result of `get_user_orders`: the no-orders message for the user id, or
the listing of order lines. -/
inductive OrdersResult
  | noOrders (user_id : ℤ)
  | listing (lines : List OrderLine)
  deriving DecidableEq

/-- Join step of `DatabasePlugin.get_user_orders` (database_plugin.py
lines 148-160) over explicit tables: filter the orders by user id, then
resolve each order's product name with `find?` (the source's
`next(..., None)`), falling back to "Unknown" when the product id is
absent. -/
def user_order_lines (products : List Product) (orders : List Order)
    (user_id : ℤ) : List OrderLine :=
  (orders.filter (fun o => o.user_id == user_id)).map (fun o =>
    match products.find? (fun p => p.id == o.product_id) with
    | some product => ⟨o.id, product.name, o.quantity, o.status⟩
    | none => ⟨o.id, "Unknown", o.quantity, o.status⟩)

/-- Embeds `DatabasePlugin.get_user_orders` (database_plugin.py lines
141-161) on the fixed tables. -/
def get_user_orders (user_id : ℤ) : OrdersResult :=
  let user_orders := _orders.filter (fun o => o.user_id == user_id)
  if user_orders.isEmpty then .noOrders user_id
  else .listing (user_order_lines _products _orders user_id)

/-- Result of `check_stock`: the not-found message for the product id, or
the sufficient / insufficient message carrying the product name, its
stock, and the requested quantity. -/
inductive StockResult
  | notFound (product_id : ℤ)
  | sufficient (name : String) (stock : ℤ) (quantity : ℤ)
  | insufficient (name : String) (stock : ℤ) (quantity : ℤ)
  deriving DecidableEq

/-- Embeds `DatabasePlugin.check_stock` (database_plugin.py lines
167-182): looks the product up by id and compares its stock with the
requested quantity (`product["stock"] >= quantity`). -/
def check_stock (product_id quantity : ℤ) : StockResult :=
  match _products.find? (fun p => p.id == product_id) with
  | none => .notFound product_id
  | some p =>
    if p.stock ≥ quantity then .sufficient p.name p.stock quantity
    else .insufficient p.name p.stock quantity

/-- Total computed by `DatabasePlugin.get_total_inventory_value`
(database_plugin.py line 192): the sum of `price * stock` over the
product table. -/
def total_inventory_value : ℚ :=
  (_products.map (fun p => p.price * (p.stock : ℚ))).sum

/-- Per-product breakdown reported by `get_total_inventory_value`
(database_plugin.py lines 195-197): product name paired with its line
value `price * stock`. -/
def inventory_breakdown : List (String × ℚ) :=
  _products.map (fun p => (p.name, p.price * (p.stock : ℚ)))

/-- C4: the grand total equals the literal sum of price * stock over the
fixed product table; it is an exact multiple of a cent, so two-decimal
formatting loses nothing; and the reported per-product breakdown sums to
the grand total. -/
theorem total_inventory_value_spec :
    total_inventory_value =
      999.99 * 15 + 29.99 * 50 + 79.99 * 30 + 299.99 * 8 + 199.99 * 12 + 399.99 * 5 ∧
    total_inventory_value = 25698.80 ∧
    inventory_breakdown =
      [("Laptop", 14999.85), ("Mouse", 1499.50), ("Keyboard", 2399.70),
       ("Monitor", 2399.92), ("Desk Chair", 2399.88), ("Desk", 1999.95)] ∧
    (inventory_breakdown.map Prod.snd).sum = total_inventory_value ∧
    (∃ cents : ℤ, total_inventory_value = (cents : ℚ) / 100) := by
  refine ⟨?_, ?_, ?_, ?_, ⟨2569880, ?_⟩⟩
  · norm_num [total_inventory_value, _products]
  · norm_num [total_inventory_value, _products]
  · norm_num [inventory_breakdown, _products]
  · norm_num [inventory_breakdown, total_inventory_value, _products]
  · norm_num [total_inventory_value, _products]

/-- C5: get_user_orders 1 on the fixed dataset lists exactly the two
orders 1001 and 1003, each with its product name, quantity and status. -/
theorem get_user_orders_user1 :
    get_user_orders 1 = .listing
      [⟨1001, "Laptop", 1, "Delivered"⟩, ⟨1003, "Monitor", 1, "Processing"⟩] ∧
    (user_order_lines _products _orders 1).length = 2 ∧
    (user_order_lines _products _orders 1).map OrderLine.order_id = [1001, 1003] := by
  refine ⟨?_, ?_, ?_⟩ <;> rfl

/-- C6: for every product table, order table and user id, the join
produces one line for every order of that user (the query always
succeeds), and a matching order whose product id is absent from the
product table is listed with the placeholder name "Unknown" rather than
failing. -/
theorem user_order_lines_spec (products : List Product) (orders : List Order)
    (uid : ℤ) :
    (user_order_lines products orders uid).length
      = (orders.filter (fun o => o.user_id == uid)).length ∧
    (∀ o ∈ orders, o.user_id = uid →
      (∀ p ∈ products, p.id ≠ o.product_id) →
      (⟨o.id, "Unknown", o.quantity, o.status⟩ : OrderLine)
        ∈ user_order_lines products orders uid) := by
  constructor
  · simp [user_order_lines]
  · intro o ho huid hnone
    have hmem : o ∈ orders.filter (fun o => o.user_id == uid) := by
      simp [List.mem_filter, ho, huid]
    have hfind : products.find? (fun p => p.id == o.product_id) = none := by
      rw [List.find?_eq_none]
      intro p hp
      simpa using hnone p hp
    simp only [user_order_lines]
    refine List.mem_map.mpr ⟨o, hmem, ?_⟩
    rw [hfind]

/-- Witness for `user_order_lines_spec`: a single order referencing the
absent product id 999 is listed with the placeholder name "Unknown". -/
theorem user_order_lines_spec_w :
    (user_order_lines [⟨101, "Laptop", 999.99, 15, "Electronics"⟩]
        [⟨5001, 7, 999, 2, "Shipped"⟩] 7).length
      = ([(⟨5001, 7, 999, 2, "Shipped"⟩ : Order)].filter
          (fun o => o.user_id == (7 : ℤ))).length ∧
    (⟨5001, "Unknown", 2, "Shipped"⟩ : OrderLine)
      ∈ user_order_lines [⟨101, "Laptop", 999.99, 15, "Electronics"⟩]
          [⟨5001, 7, 999, 2, "Shipped"⟩] 7 := by
  have h := user_order_lines_spec [⟨101, "Laptop", 999.99, 15, "Electronics"⟩]
    [⟨5001, 7, 999, 2, "Shipped"⟩] 7
  refine ⟨h.1, h.2 ⟨5001, 7, 999, 2, "Shipped"⟩ ?_ rfl ?_⟩
  · simp
  · intro p hp
    simp only [List.mem_singleton] at hp
    rw [hp]
    decide

/-- C9: for every known product id (one the lookup resolves to a product
`p`) and every integer quantity, check_stock reports sufficiency exactly
when the stock is at least the quantity; a request for exactly the
available stock is sufficient, and a quantity at most zero is always
sufficient. -/
theorem check_stock_spec (product_id quantity : ℤ) (p : Product)
    (hp : _products.find? (fun q => q.id == product_id) = some p) :
    (check_stock product_id quantity = .sufficient p.name p.stock quantity
      ↔ quantity ≤ p.stock) ∧
    (quantity = p.stock →
      check_stock product_id quantity = .sufficient p.name p.stock quantity) ∧
    (quantity ≤ 0 →
      check_stock product_id quantity = .sufficient p.name p.stock quantity) := by
  have hcs : check_stock product_id quantity =
      if p.stock ≥ quantity then StockResult.sufficient p.name p.stock quantity
      else StockResult.insufficient p.name p.stock quantity := by
    simp only [check_stock, hp]
  have hall : ∀ q ∈ _products, 0 ≤ q.stock := by decide
  have hstock : 0 ≤ p.stock := hall p (List.mem_of_find?_eq_some hp)
  refine ⟨?_, ?_, ?_⟩
  · rw [hcs]
    by_cases hq : p.stock ≥ quantity
    · simp [hq]
    · simp [hq]
  · intro he
    rw [hcs, if_pos (le_of_eq he)]
  · intro hle
    rw [hcs, if_pos (le_trans hle hstock)]

/-- Witness for `check_stock_spec`: requesting exactly the 15 units of
product 101 is reported sufficient. -/
theorem check_stock_spec_w :
    check_stock 101 15 = .sufficient "Laptop" 15 15 := by
  have h := check_stock_spec 101 15 ⟨101, "Laptop", 999.99, 15, "Electronics"⟩ rfl
  exact h.2.1 rfl

/-- C10: a query whose lowercasing occurs in every product's lowercased
name or category matches the whole table, so search_products returns all
six products count-prefixed; the empty query is such a query. -/
theorem search_products_spec (query : String)
    (hall : ∀ p ∈ _products,
      PyStr.SubOf (PyStr.lower query) (PyStr.lower p.name) ∨
        PyStr.SubOf (PyStr.lower query) (PyStr.lower p.category)) :
    search_products query = .found 6 _products := by
  have hfilter : _products.filter (fun p =>
      PyStr.contains (PyStr.lower query) (PyStr.lower p.name) ||
        PyStr.contains (PyStr.lower query) (PyStr.lower p.category)) = _products := by
    rw [List.filter_eq_self]
    intro p hp
    rcases hall p hp with h | h
    · have hc := (PyStr.contains_iff _ _).mpr h
      simp [hc]
    · have hc := (PyStr.contains_iff _ _).mpr h
      simp [hc]
  simp only [search_products]
  rw [hfilter]
  rfl

/-- Witness for `search_products_spec`: the empty query is a substring of
every name and category, so the full six-product table is returned with
count 6. -/
theorem search_products_spec_w : search_products "" = .found 6 _products := by
  apply search_products_spec
  intro p hp
  left
  refine ⟨[], (PyStr.lower p.name).toList, ?_⟩
  have h0 : (PyStr.lower "").toList = ([] : List Char) := by decide
  rw [h0]
  simp

end DatabasePlugin

namespace WeatherPlugin

/-- A weather record of the static table: temperature in °F, condition
text, humidity in percent. -/
structure Weather where
  temp : ℤ
  condition : String
  humidity : ℤ
  deriving DecidableEq

/-- The static city table `_weather_data` (weather_plugin.py lines
18-26), keyed by lowercase city name. -/
def _weather_data : List (String × Weather) :=
  [("new york", ⟨72, "Partly Cloudy", 65⟩),
   ("london", ⟨59, "Rainy", 80⟩),
   ("tokyo", ⟨68, "Sunny", 55⟩),
   ("paris", ⟨64, "Cloudy", 70⟩),
   ("sydney", ⟨77, "Sunny", 60⟩),
   ("mumbai", ⟨86, "Humid", 85⟩),
   ("dubai", ⟨95, "Hot and Sunny", 45⟩)]

/-- The condition pool `random.choice` draws from for unknown cities
(weather_plugin.py line 50). -/
def conditions : List String := ["Sunny", "Cloudy", "Rainy", "Partly Cloudy"]

/-- Abstract outcome of the `random` module for one call of
`get_current_weather`: the two `randint` draws and the `choice` draw,
each constrained exactly as the library guarantees (`randint a b`
inclusive on both ends, `choice` a member of its pool). Quantifying over
all outcomes quantifies over all behaviors of the random source. -/
structure RandOutcome where
  temp : ℤ
  condition : String
  humidity : ℤ
  temp_mem : 50 ≤ temp ∧ temp ≤ 90
  condition_mem : condition ∈ conditions
  humidity_mem : 40 ≤ humidity ∧ humidity ≤ 90

/-- Embeds `WeatherPlugin.get_current_weather` (weather_plugin.py lines
32-61), returning the weather record whose fields the source formats:
the stored record when the lowercased city is a key of the table, else
the synthesized random reading `g`. -/
def get_current_weather (g : RandOutcome) (city : String) : Weather :=
  match _weather_data.lookup (PyStr.lower city) with
  | some weather => weather
  | none => ⟨g.temp, g.condition, g.humidity⟩

/-- C7: the table lookup uses the lowercased city, so the result depends
only on the lowercasing; "London" deterministically yields the stored
record (59°F, Rainy, 80% humidity) for every random outcome; and for a
city absent from the table the synthesized reading has temperature in
[50, 90], humidity in [40, 90] and a condition from the fixed pool, for
every random outcome. -/
theorem get_current_weather_spec (g : RandOutcome) (city : String) :
    (∀ c2 : String, PyStr.lower city = PyStr.lower c2 →
      get_current_weather g city = get_current_weather g c2) ∧
    get_current_weather g "London" = ⟨59, "Rainy", 80⟩ ∧
    (_weather_data.lookup (PyStr.lower city) = none →
      50 ≤ (get_current_weather g city).temp ∧
      (get_current_weather g city).temp ≤ 90 ∧
      40 ≤ (get_current_weather g city).humidity ∧
      (get_current_weather g city).humidity ≤ 90 ∧
      (get_current_weather g city).condition ∈ conditions) := by
  refine ⟨?_, ?_, ?_⟩
  · intro c2 h
    rw [get_current_weather, get_current_weather, h]
  · have hl : _weather_data.lookup (PyStr.lower "London")
        = some ⟨59, "Rainy", 80⟩ := by decide
    rw [get_current_weather, hl]
  · intro hnone
    simp only [get_current_weather, hnone]
    exact ⟨g.temp_mem.1, g.temp_mem.2, g.humidity_mem.1, g.humidity_mem.2,
      g.condition_mem⟩

/-- A concrete random outcome, used to instantiate the weather theorems:
lowest temperature, first condition of the pool, lowest humidity. -/
def sampleOutcome : RandOutcome :=
  ⟨50, "Sunny", 40, by norm_num, by simp [conditions], by norm_num⟩

/-- Witness for `get_current_weather_spec`: "London" resolves to the
stored record, and the unknown city "Atlantis" gets a synthesized
reading inside the specified ranges. -/
theorem get_current_weather_spec_w :
    get_current_weather sampleOutcome "London" = ⟨59, "Rainy", 80⟩ ∧
    50 ≤ (get_current_weather sampleOutcome "Atlantis").temp ∧
    (get_current_weather sampleOutcome "Atlantis").temp ≤ 90 ∧
    40 ≤ (get_current_weather sampleOutcome "Atlantis").humidity ∧
    (get_current_weather sampleOutcome "Atlantis").humidity ≤ 90 ∧
    (get_current_weather sampleOutcome "Atlantis").condition ∈ conditions := by
  have hn : _weather_data.lookup (PyStr.lower "Atlantis") = none := by decide
  have h := get_current_weather_spec sampleOutcome "Atlantis"
  exact ⟨h.2.1, h.2.2 hn⟩

/-- Result of `should_bring_umbrella`: the three constructors stand for
the three message templates of the source (bring an umbrella, no
umbrella needed, no data available). -/
inductive Advice
  | bring (condition : String) (city : String)
  | noNeed (condition : String) (city : String)
  | noData (city : String)
  deriving DecidableEq

/-- Embeds `WeatherPlugin.should_bring_umbrella` (weather_plugin.py lines
108-123): for a known (lowercased) city, recommends an umbrella exactly
when the lowercased stored condition contains "rain" or "storm"; for an
unknown city returns the fixed no-data message and consults no random
source. -/
def should_bring_umbrella (city : String) : Advice :=
  match _weather_data.lookup (PyStr.lower city) with
  | some w =>
    if PyStr.contains "rain" (PyStr.lower w.condition) ||
        PyStr.contains "storm" (PyStr.lower w.condition)
    then .bring w.condition city
    else .noNeed w.condition city
  | none => .noData city

/-- C8: for every city whose lowercasing is a key of the static table,
the answer is the umbrella recommendation exactly when the stored
condition contains "rain" or "storm" as a case-insensitive substring,
and otherwise the no-umbrella message; for every city not in the table
it is the fixed neutral message, and no random weather is synthesized
(the result is a pure function of the city). -/
theorem should_bring_umbrella_spec (city : String) :
    (∀ w, _weather_data.lookup (PyStr.lower city) = some w →
      (should_bring_umbrella city = .bring w.condition city ↔
        (PyStr.SubOf "rain" (PyStr.lower w.condition) ∨
          PyStr.SubOf "storm" (PyStr.lower w.condition))) ∧
      (¬(PyStr.SubOf "rain" (PyStr.lower w.condition) ∨
          PyStr.SubOf "storm" (PyStr.lower w.condition)) →
        should_bring_umbrella city = .noNeed w.condition city)) ∧
    (_weather_data.lookup (PyStr.lower city) = none →
      should_bring_umbrella city = .noData city) := by
  constructor
  · intro w hw
    have hbu : should_bring_umbrella city =
        if PyStr.contains "rain" (PyStr.lower w.condition) ||
            PyStr.contains "storm" (PyStr.lower w.condition)
        then Advice.bring w.condition city
        else Advice.noNeed w.condition city := by
      simp only [should_bring_umbrella, hw]
    constructor
    · rw [hbu]
      by_cases hc : PyStr.contains "rain" (PyStr.lower w.condition) ||
          PyStr.contains "storm" (PyStr.lower w.condition)
      · simp only [if_pos hc, true_iff]
        rcases Bool.or_eq_true_iff.mp hc with h | h
        · exact Or.inl ((PyStr.contains_iff _ _).mp h)
        · exact Or.inr ((PyStr.contains_iff _ _).mp h)
      · simp only [if_neg hc]
        constructor
        · intro hfalse
          exact absurd hfalse (by simp)
        · intro hsub
          exfalso
          apply hc
          rcases hsub with h | h
          · simp [(PyStr.contains_iff _ _).mpr h]
          · simp [(PyStr.contains_iff _ _).mpr h]
    · intro hnot
      rw [hbu, if_neg]
      intro hc
      apply hnot
      rcases Bool.or_eq_true_iff.mp hc with h | h
      · exact Or.inl ((PyStr.contains_iff _ _).mp h)
      · exact Or.inr ((PyStr.contains_iff _ _).mp h)
  · intro hnone
    simp only [should_bring_umbrella, hnone]

/-- Witness for `should_bring_umbrella_spec`: London's stored condition
"Rainy" contains "rain", so the umbrella is recommended; "Atlantis" is
unknown and gets the neutral message. -/
theorem should_bring_umbrella_spec_w :
    should_bring_umbrella "London" = .bring "Rainy" "London" ∧
    should_bring_umbrella "Atlantis" = .noData "Atlantis" := by
  have h1 := (should_bring_umbrella_spec "London").1 ⟨59, "Rainy", 80⟩ (by decide)
  have h2 := (should_bring_umbrella_spec "Atlantis").2 (by decide)
  refine ⟨h1.1.mpr (Or.inl ⟨[], ['y'], ?_⟩), h2⟩
  decide

end WeatherPlugin
